import Mathlib

/-
Verification of the mcp-tavily-search request-dispatch and response-shaping
layer: a shallow embedding of src/index.ts (tool dispatcher, parameter
defaulting, result cache, response formatters), src/tools.ts (the tool
registry TAVILY_TOOLS) and src/types.ts (parameter and response records),
with theorems about the registry, the cache, the formatters and the
dispatcher.  JavaScript strings are modelled as Lean String, JS numbers that
the layer only stores or compares as Nat, and JSON numeric literals that are
only serialized (result scores, response_time) as their decimal rendering.
Date.now() timestamps are in milliseconds and are passed explicitly; the
external search provider is a black-box argument of the handlers.
-/

/-- Untyped JavaScript value, as found in the raw argument bag of a tool
invocation.  Only the shapes that can actually reach the dispatcher matter:
strings, numbers, booleans, null and string arrays. -/
inductive JsVal where
  | vstr : String → JsVal
  | vnum : Int → JsVal
  | vbool : Bool → JsVal
  | vnull : JsVal
  | varrStr : List String → JsVal
deriving DecidableEq, Repr

/-- JavaScript truthiness of a value ('' , 0, false and null are falsy). -/
def jsTruthy : JsVal → Bool
  | .vstr s => s != ""
  | .vnum n => n != 0
  | .vbool b => b
  | .vnull => false
  | .varrStr _ => true

/-- One search hit of the provider reply (types.ts, TavilySearchResponse.results
element): title, url, content, optional raw_content, score, optional
published_date.  The score is never computed with by this layer, only
serialized, so it is carried as its JSON numeric literal. -/
structure SearchResultItem where
  title : String
  url : String
  content : String
  raw_content : Option String := none
  score : String := "0"
  published_date : Option String := none
deriving DecidableEq, Repr

/-- Element of the images array of a provider reply: either a bare URL string
or an object with url and description (types.ts). -/
inductive TavilyImage where
  | urlOnly : String → TavilyImage
  | withDescription : String → String → TavilyImage
deriving DecidableEq, Repr

/-- The normalized search response (types.ts, TavilySearchResponse): query,
optional answer, response_time (a JSON numeric literal: the handler attaches
the measured wall-clock seconds, which this model treats as part of the
provider reply since the clock is external), optional images, results. -/
structure TavilySearchResponse where
  query : String
  answer : Option String := none
  response_time : String := "0"
  images : Option (List TavilyImage) := none
  results : List SearchResultItem := []
deriving DecidableEq, Repr

/-- Hexadecimal digit for \u escapes. -/
def hexDigit (n : Nat) : String :=
  if n = 0 then "0" else if n = 1 then "1" else if n = 2 then "2"
  else if n = 3 then "3" else if n = 4 then "4" else if n = 5 then "5"
  else if n = 6 then "6" else if n = 7 then "7" else if n = 8 then "8"
  else if n = 9 then "9" else if n = 10 then "a" else if n = 11 then "b"
  else if n = 12 then "c" else if n = 13 then "d" else if n = 14 then "e"
  else "f"

/-- JSON.stringify escaping of a single character. -/
def jsonEscapeChar (c : Char) : String :=
  if c = '"' then "\\\""
  else if c = '\\' then "\\\\"
  else if c = '\n' then "\\n"
  else if c = '\t' then "\\t"
  else if c = '\r' then "\\r"
  else if c.toNat < 32 then
    "\\u00" ++ hexDigit (c.toNat / 16) ++ hexDigit (c.toNat % 16)
  else String.singleton c

/-- JSON.stringify escaping of a string body. -/
def jsonEscape (s : String) : String :=
  String.join (s.data.map jsonEscapeChar)

/-- JSON rendering of a string value. -/
def jsonStr (s : String) : String := "\"" ++ jsonEscape s ++ "\""

/-- JSON rendering of a boolean value. -/
def jsonBool (b : Bool) : String := if b then "true" else "false"

/-- Fields of one result object as rendered by JSON.stringify, in the order
the TavilySearchResponse interface declares them (types.ts); optional fields
that are undefined are omitted. -/
def jsonResultFields (r : SearchResultItem) : List String :=
  ["\"title\": " ++ jsonStr r.title,
   "\"url\": " ++ jsonStr r.url,
   "\"content\": " ++ jsonStr r.content]
  ++ (match r.raw_content with
      | some rc => ["\"raw_content\": " ++ jsonStr rc]
      | none => [])
  ++ ["\"score\": " ++ r.score]
  ++ (match r.published_date with
      | some d => ["\"published_date\": " ++ jsonStr d]
      | none => [])

/-- One result object pretty-printed at the nesting depth it has inside the
response (JSON.stringify(x, null, 2)). -/
def jsonResultItem (r : SearchResultItem) : String :=
  "\x7b\n"
  ++ String.intercalate ",\n" ((jsonResultFields r).map (fun f => "      " ++ f))
  ++ "\n    \x7d"

/-- The results array pretty-printed at depth 1 (JSON.stringify(x, null, 2)). -/
def jsonResults (rs : List SearchResultItem) : String :=
  match rs with
  | [] => "[]"
  | _ => "[\n"
      ++ String.intercalate ",\n" (rs.map (fun r => "    " ++ jsonResultItem r))
      ++ "\n  ]"

/-- One image entry pretty-printed at depth 2. -/
def jsonImage : TavilyImage → String
  | .urlOnly u => jsonStr u
  | .withDescription u d =>
      "\x7b\n      \"url\": " ++ jsonStr u
      ++ ",\n      \"description\": " ++ jsonStr d ++ "\n    \x7d"

/-- The images array pretty-printed at depth 1. -/
def jsonImages (xs : List TavilyImage) : String :=
  match xs with
  | [] => "[]"
  | _ => "[\n"
      ++ String.intercalate ",\n" (xs.map (fun x => "    " ++ jsonImage x))
      ++ "\n  ]"

/-- JSON.stringify(search_response, null, 2) as produced on the search tool's
reply path, with keys in the order the TavilySearchResponse interface
declares them and undefined optional keys omitted. -/
def jsonStringifyResponse (resp : TavilySearchResponse) : String :=
  let fields : List String :=
    ["\"query\": " ++ jsonStr resp.query]
    ++ (match resp.answer with
        | some a => ["\"answer\": " ++ jsonStr a]
        | none => [])
    ++ ["\"response_time\": " ++ resp.response_time]
    ++ (match resp.images with
        | some xs => ["\"images\": " ++ jsonImages xs]
        | none => [])
    ++ ["\"results\": " ++ jsonResults resp.results]
  "\x7b\n" ++ String.intercalate ",\n" (fields.map (fun f => "  " ++ f)) ++ "\n\x7d"

/-- Boolean string-prefix test on the character sequences of two strings. -/
def startsWithStr (s p : String) : Bool := p.data.isPrefixOf s.data

/-- Cache entry (index.ts, CacheEntry): the stored response, the Date.now()
millisecond timestamp recorded by set, and the time-to-live in seconds. -/
structure CacheEntry where
  data : TavilySearchResponse
  timestamp : Nat
  ttl : Nat
deriving DecidableEq, Repr

/-- The private Map of TavilyCache, modelled as an association list with
unique keys. -/
abbrev CacheMap := List (String × CacheEntry)

/-- Lookup of the entry stored under a key (Map.get of the underlying map). -/
def lookupEntry (m : CacheMap) (k : String) : Option CacheEntry :=
  (m.find? (fun kv => kv.1 == k)).map (fun kv => kv.2)

/-- TavilyCache.set: stores the data under the key with the current timestamp
and the given ttl, replacing any previous entry for that key. -/
def cacheSet (m : CacheMap) (k : String) (data : TavilySearchResponse)
    (now ttl : Nat) : CacheMap :=
  (k, { data := data, timestamp := now, ttl := ttl }) :: m.filter (fun kv => kv.1 != k)

/-- TavilyCache.get: absent key yields null; an entry older than ttl seconds
(now - timestamp > ttl * 1000 in milliseconds) is deleted and null is
returned; otherwise the stored data is returned.  The pair carries the map
after the lazy deletion. -/
def cacheGet (m : CacheMap) (now : Nat) (k : String) :
    Option TavilySearchResponse × CacheMap :=
  match m.find? (fun kv => kv.1 == k) with
  | none => (none, m)
  | some kv =>
      if now - kv.2.timestamp > kv.2.ttl * 1000 then
        (none, m.filter (fun kv => kv.1 != k))
      else
        (some kv.2.data, m)

/-- Typed parameter record of the search tool (types.ts, TavilySearchParams).
Every field but query is optional; note the interface has no response_format,
cache_ttl, force_refresh or min_score field. -/
structure TavilySearchParams where
  query : String
  search_depth : Option String := none
  topic : Option String := none
  days : Option Nat := none
  time_range : Option String := none
  max_results : Option Nat := none
  include_images : Option Bool := none
  include_image_descriptions : Option Bool := none
  include_answer : Option Bool := none
  include_raw_content : Option Bool := none
  include_domains : Option (List String) := none
  exclude_domains : Option (List String) := none
deriving DecidableEq, Repr

/-- Typed parameter record of the context tool (types.ts, TavilyContextParams). -/
structure TavilyContextParams where
  query : String
  max_tokens : Option Nat := none
  search_depth : Option String := none
  topic : Option String := none
  days : Option Nat := none
  time_range : Option String := none
  max_results : Option Nat := none
  include_domains : Option (List String) := none
  exclude_domains : Option (List String) := none
deriving DecidableEq, Repr

/-- Typed parameter record of the QnA tool (types.ts, TavilyQnAParams). -/
structure TavilyQnAParams where
  query : String
  search_depth : Option String := none
  topic : Option String := none
  days : Option Nat := none
  time_range : Option String := none
  max_results : Option Nat := none
  include_domains : Option (List String) := none
  exclude_domains : Option (List String) := none
deriving DecidableEq, Repr

/-- The raw argument bag of an invocation request (request.params.arguments),
with one slot per field the dispatcher or a tool schema mentions; a field
absent from the request is none (undefined).  The query slot keeps its
untyped JsVal shape because the dispatcher inspects its truthiness and its
runtime type; the remaining slots carry the schema's type, which is what the
dispatcher's unchecked casts assume. -/
structure RawArgs where
  query : Option JsVal := none
  search_depth : Option String := none
  topic : Option String := none
  days : Option Nat := none
  time_range : Option String := none
  max_results : Option Nat := none
  include_images : Option Bool := none
  include_image_descriptions : Option Bool := none
  include_answer : Option Bool := none
  include_raw_content : Option Bool := none
  include_domains : Option (List String) := none
  exclude_domains : Option (List String) := none
  response_format : Option String := none
  cache_ttl : Option Nat := none
  force_refresh : Option Bool := none
  max_tokens : Option Nat := none
  include_sources : Option Bool := none
  min_score : Option Nat := none
deriving DecidableEq, Repr

/-- One property of a tool's input schema (tools.ts): JSON type, description,
optional enum constraint and optional declared default. -/
structure SchemaProperty where
  name : String
  type : String
  description : String := ""
  enumVals : Option (List String) := none
  default : Option JsVal := none
deriving DecidableEq, Repr

/-- One registry entry (tools.ts, TavilyToolConfig): name, description and the
input schema as its ordered property list plus required-field list. -/
structure ToolDescriptor where
  name : String
  description : String
  properties : List SchemaProperty
  required : List String
deriving DecidableEq, Repr

/-- The tool registry (tools.ts, TAVILY_TOOLS), transcribed field by field.
The float default 0.0 of min_score is carried as the integer 0; no claim
computes with it. -/
def TAVILY_TOOLS : List ToolDescriptor :=
  [{ name := "tavily_search",
     description := "Search the web using Tavily Search API, optimized for high-quality, factual results",
     properties :=
       [{ name := "query", type := "string", description := "Search query" },
        { name := "search_depth", type := "string",
          description := "The depth of the search (\"basic\" for faster results, \"advanced\" for more thorough search)",
          enumVals := some ["basic", "advanced"], default := some (.vstr "basic") },
        { name := "include_answer", type := "boolean",
          description := "Include an AI-generated answer based on search results",
          default := some (.vbool true) },
        { name := "include_domains", type := "array",
          description := "List of trusted domains to include in search",
          default := some (.varrStr []) },
        { name := "exclude_domains", type := "array",
          description := "List of domains to exclude from search",
          default := some (.varrStr []) },
        { name := "response_format", type := "string",
          description := "Format of the search results",
          enumVals := some ["text", "json", "markdown"],
          default := some (.vstr "text") },
        { name := "max_results", type := "number",
          description := "Maximum number of results to return",
          default := some (.vnum 10) },
        { name := "min_score", type := "number",
          description := "Minimum relevancy score for results (0-1)",
          default := some (.vnum 0) },
        { name := "cache_ttl", type := "number",
          description := "Cache time-to-live in seconds",
          default := some (.vnum 3600) },
        { name := "force_refresh", type := "boolean",
          description := "Force fresh results ignoring cache",
          default := some (.vbool false) }],
     required := ["query"] },
   { name := "tavily_get_search_context",
     description := "Generate context for RAG applications using Tavily search",
     properties :=
       [{ name := "query", type := "string",
          description := "Search query for context generation" },
        { name := "max_tokens", type := "number",
          description := "Maximum length of generated context",
          default := some (.vnum 2000) },
        { name := "response_format", type := "string",
          description := "Format of the context response",
          enumVals := some ["text", "json"],
          default := some (.vstr "text") }],
     required := ["query"] },
   { name := "tavily_qna_search",
     description := "Get direct answers to questions using Tavily search",
     properties :=
       [{ name := "query", type := "string",
          description := "Question to be answered" },
        { name := "include_sources", type := "boolean",
          description := "Include source citations in the answer",
          default := some (.vbool true) },
        { name := "response_format", type := "string",
          description := "Format of the answer response",
          enumVals := some ["text", "json"],
          default := some (.vstr "text") }],
     required := ["query"] }]

/-- TAVILY_TOOLS.find on the tool name, as the dispatcher performs it. -/
def findTool (n : String) : Option ToolDescriptor :=
  TAVILY_TOOLS.find? (fun t => t.name == n)

/-- Names of the schema properties a registered tool declares, in order. -/
def toolPropNames (toolName : String) : List String :=
  match findTool toolName with
  | some t => t.properties.map (fun p => p.name)
  | none => []

/-- Declared schema default of a property of a registered tool. -/
def schemaDefault (toolName field : String) : Option JsVal :=
  match findTool toolName with
  | some t =>
      match t.properties.find? (fun p => p.name == field) with
      | some p => p.default
      | none => none
  | none => none

/-- Errors thrown inside a tool invocation: TavilyError(message, code) from
the handlers, or McpError(code, message) from the dispatcher's own checks. -/
inductive ToolError where
  | tavilyError (message code : String)
  | mcpError (code : Int) (message : String)
deriving DecidableEq, Repr

/-- ErrorCode.MethodNotFound of the protocol SDK. -/
def methodNotFoundCode : Int := -32601

/-- ErrorCode.InvalidParams of the protocol SDK. -/
def invalidParamsCode : Int := -32602

/-- error_handler.format_error: a TavilyError renders with its code, any
other Error with its message; an McpError's message is the SDK's
"MCP error <code>: <message>". -/
def format_error : ToolError → String
  | .tavilyError msg code => "Tavily API Error (" ++ code ++ "): " ++ msg
  | .mcpError code msg => "Error: MCP error " ++ toString code ++ ": " ++ msg

/-- The McpError the dispatcher throws when the query argument is falsy or
not a string. -/
def invalidQueryError : ToolError :=
  .mcpError invalidParamsCode "Query parameter is required and must be a string"

/-- The dispatcher's query check, shared verbatim by the three tool cases:
rejects unless rawArgs.query is a truthy string
(!rawArgs?.query || typeof rawArgs.query !== 'string'). -/
def validate_query (raw : RawArgs) : Option String :=
  match raw.query with
  | some (.vstr s) => if s = "" then none else some s
  | _ => none

/-- Construction of the typed search args from the raw bag (dispatcher, case
'tavily_search'): every TavilySearchParams field is copied; response_format,
cache_ttl, force_refresh and min_score have no slot in the record and are
dropped. -/
def rawToSearchParams (q : String) (raw : RawArgs) : TavilySearchParams :=
  { query := q,
    search_depth := raw.search_depth,
    topic := raw.topic,
    days := raw.days,
    time_range := raw.time_range,
    max_results := raw.max_results,
    include_images := raw.include_images,
    include_image_descriptions := raw.include_image_descriptions,
    include_answer := raw.include_answer,
    include_raw_content := raw.include_raw_content,
    include_domains := raw.include_domains,
    exclude_domains := raw.exclude_domains }

/-- Construction of the typed context args from the raw bag (dispatcher, case
'tavily_get_search_context'). -/
def rawToContextParams (q : String) (raw : RawArgs) : TavilyContextParams :=
  { query := q,
    max_tokens := raw.max_tokens,
    search_depth := raw.search_depth,
    topic := raw.topic,
    days := raw.days,
    time_range := raw.time_range,
    max_results := raw.max_results,
    include_domains := raw.include_domains,
    exclude_domains := raw.exclude_domains }

/-- Construction of the typed QnA args from the raw bag (dispatcher, case
'tavily_qna_search'). -/
def rawToQnAParams (q : String) (raw : RawArgs) : TavilyQnAParams :=
  { query := q,
    search_depth := raw.search_depth,
    topic := raw.topic,
    days := raw.days,
    time_range := raw.time_range,
    max_results := raw.max_results,
    include_domains := raw.include_domains,
    exclude_domains := raw.exclude_domains }

/-- The values handle_search works with after its destructuring defaults. -/
structure SearchSettings where
  query : String
  search_depth : String
  topic : String
  days : Option Nat
  time_range : Option String
  max_results : Nat
  include_images : Bool
  include_image_descriptions : Bool
  include_answer : Bool
  include_raw_content : Bool
  include_domains : List String
  exclude_domains : List String
deriving DecidableEq, Repr

/-- handle_search's destructuring defaults: search_depth 'basic', topic
'general', max_results 5, the four include flags false, domains the server's
empty default lists. -/
def searchDefaults (p : TavilySearchParams) : SearchSettings :=
  { query := p.query,
    search_depth := p.search_depth.getD "basic",
    topic := p.topic.getD "general",
    days := p.days,
    time_range := p.time_range,
    max_results := p.max_results.getD 5,
    include_images := p.include_images.getD false,
    include_image_descriptions := p.include_image_descriptions.getD false,
    include_answer := p.include_answer.getD false,
    include_raw_content := p.include_raw_content.getD false,
    include_domains := p.include_domains.getD [],
    exclude_domains := p.exclude_domains.getD [] }

/-- The values handle_context works with after its destructuring defaults. -/
structure ContextSettings where
  query : String
  max_tokens : Nat
  search_depth : String
  topic : String
  days : Option Nat
  time_range : Option String
  max_results : Nat
  include_domains : List String
  exclude_domains : List String
deriving DecidableEq, Repr

/-- handle_context's destructuring defaults: max_tokens 2000, search_depth
'advanced', topic 'general', max_results 5, empty domain lists. -/
def contextDefaults (p : TavilyContextParams) : ContextSettings :=
  { query := p.query,
    max_tokens := p.max_tokens.getD 2000,
    search_depth := p.search_depth.getD "advanced",
    topic := p.topic.getD "general",
    days := p.days,
    time_range := p.time_range,
    max_results := p.max_results.getD 5,
    include_domains := p.include_domains.getD [],
    exclude_domains := p.exclude_domains.getD [] }

/-- The values handle_qna works with after its destructuring defaults. -/
structure QnASettings where
  query : String
  search_depth : String
  topic : String
  days : Option Nat
  time_range : Option String
  max_results : Nat
  include_domains : List String
  exclude_domains : List String
deriving DecidableEq, Repr

/-- handle_qna's destructuring defaults: search_depth 'advanced', topic
'general', max_results 5, empty domain lists. -/
def qnaDefaults (p : TavilyQnAParams) : QnASettings :=
  { query := p.query,
    search_depth := p.search_depth.getD "advanced",
    topic := p.topic.getD "general",
    days := p.days,
    time_range := p.time_range,
    max_results := p.max_results.getD 5,
    include_domains := p.include_domains.getD [],
    exclude_domains := p.exclude_domains.getD [] }

/-- The cache key of handle_search: JSON.stringify of the object literal
holding query, search_depth, topic, include_answer, include_images and
include_raw_content, in that key order, with no indentation. -/
def search_cache_key (s : SearchSettings) : String :=
  "\x7b\"query\":" ++ jsonStr s.query
  ++ ",\"search_depth\":" ++ jsonStr s.search_depth
  ++ ",\"topic\":" ++ jsonStr s.topic
  ++ ",\"include_answer\":" ++ jsonBool s.include_answer
  ++ ",\"include_images\":" ++ jsonBool s.include_images
  ++ ",\"include_raw_content\":" ++ jsonBool s.include_raw_content
  ++ "\x7d"

/-- Outcome of the single outbound provider call a handler makes: the parsed
reply on response.ok (for the search tool already merged with the measured
response_time), or the HTTP status and statusText otherwise. -/
inductive BackendResult where
  | ok : TavilySearchResponse → BackendResult
  | err (status : Nat) (statusText : String) : BackendResult
deriving DecidableEq, Repr

deriving instance DecidableEq for Except

/-- Result of running one handler: its thrown error or returned text, the
cache map afterwards, and whether the outbound call was made. -/
structure SearchStep where
  outcome : Except ToolError String
  cache : CacheMap
  backendCalled : Bool
deriving DecidableEq, Repr

/-- handle_search: derives the cache key from the defaulted params, returns
the JSON.stringify rendering of a live cached entry without calling the
backend, and otherwise calls the backend, throws TavilyError API_ERROR on a
non-ok response, or caches the reply under the key with ttl 3600 and returns
its JSON.stringify rendering. -/
def handle_search (backend : BackendResult) (now : Nat) (cache : CacheMap)
    (args : TavilySearchParams) : SearchStep :=
  let s := searchDefaults args
  let key := search_cache_key s
  match cacheGet cache now key with
  | (some cached, c1) =>
      { outcome := .ok (jsonStringifyResponse cached), cache := c1,
        backendCalled := false }
  | (none, c1) =>
      match backend with
      | .err _ statusText =>
          { outcome := .error (.tavilyError ("API request failed: " ++ statusText) "API_ERROR"),
            cache := c1, backendCalled := true }
      | .ok data =>
          { outcome := .ok (jsonStringifyResponse data),
            cache := cacheSet c1 key data now 3600, backendCalled := true }

/-- String.prototype.slice(0, n) of the context handler, on the character
sequence of the string. -/
def jsSlice (s : String) (n : Nat) : String := String.mk (s.data.take n)

/-- handle_context: calls the backend, throws TavilyError API_ERROR on a
non-ok response, and otherwise joins the results' content fields with a
blank line and slices the join to max_tokens characters.  The Bool records
that the outbound call was made. -/
def handle_context (backend : BackendResult) (args : TavilyContextParams) :
    Except ToolError String × Bool :=
  let s := contextDefaults args
  match backend with
  | .err _ statusText =>
      (.error (.tavilyError ("API request failed: " ++ statusText) "API_ERROR"), true)
  | .ok data =>
      (.ok (jsSlice (String.intercalate "\n\n" (data.results.map (fun r => r.content))) s.max_tokens),
       true)

/-- handle_qna: calls the backend, throws TavilyError API_ERROR on a non-ok
response, and otherwise returns data.answer when truthy and the fallback
'No answer found.' otherwise. -/
def handle_qna (backend : BackendResult) (args : TavilyQnAParams) :
    Except ToolError String × Bool :=
  let _s := qnaDefaults args
  match backend with
  | .err _ statusText =>
      (.error (.tavilyError ("API request failed: " ++ statusText) "API_ERROR"), true)
  | .ok data =>
      (.ok (match data.answer with
            | some a => if a = "" then "No answer found." else a
            | none => "No answer found."),
       true)

/-- Outcome of one invocation request at the protocol boundary: an McpError
thrown before the try block escapes as a protocol-level error; everything
else is a tool result with its isError flag. -/
inductive CallResult where
  | protocolError (code : Int) (message : String)
  | toolResult (text : String) (isError : Bool)
deriving DecidableEq, Repr

/-- Full observable outcome of a dispatch: the protocol result, the cache
afterwards, and whether a backend call happened. -/
structure DispatchOut where
  result : CallResult
  cache : CacheMap
  backendCalled : Bool
deriving DecidableEq, Repr

/-- The CallToolRequestSchema handler: looks the tool up in TAVILY_TOOLS and
throws MethodNotFound outside the try block when absent; inside the try
block validates the query, builds the typed args and runs the matching
handler; every error thrown inside the try block (the InvalidParams
McpError included) is caught and returned as a tool result with
isError = true and the format_error rendering. -/
def dispatch (backend : BackendResult) (now : Nat) (cache : CacheMap)
    (toolName : String) (raw : RawArgs) : DispatchOut :=
  match findTool toolName with
  | none =>
      { result := .protocolError methodNotFoundCode ("Unknown tool: " ++ toolName),
        cache := cache, backendCalled := false }
  | some _ =>
      if toolName = "tavily_search" then
        match validate_query raw with
        | none =>
            { result := .toolResult (format_error invalidQueryError) true,
              cache := cache, backendCalled := false }
        | some q =>
            let step := handle_search backend now cache (rawToSearchParams q raw)
            match step.outcome with
            | .ok t =>
                { result := .toolResult t false, cache := step.cache,
                  backendCalled := step.backendCalled }
            | .error e =>
                { result := .toolResult (format_error e) true, cache := step.cache,
                  backendCalled := step.backendCalled }
      else if toolName = "tavily_get_search_context" then
        match validate_query raw with
        | none =>
            { result := .toolResult (format_error invalidQueryError) true,
              cache := cache, backendCalled := false }
        | some q =>
            match handle_context backend (rawToContextParams q raw) with
            | (.ok t, b) =>
                { result := .toolResult t false, cache := cache, backendCalled := b }
            | (.error e, b) =>
                { result := .toolResult (format_error e) true, cache := cache,
                  backendCalled := b }
      else if toolName = "tavily_qna_search" then
        match validate_query raw with
        | none =>
            { result := .toolResult (format_error invalidQueryError) true,
              cache := cache, backendCalled := false }
        | some q =>
            match handle_qna backend (rawToQnAParams q raw) with
            | (.ok t, b) =>
                { result := .toolResult t false, cache := cache, backendCalled := b }
            | (.error e, b) =>
                { result := .toolResult (format_error e) true, cache := cache,
                  backendCalled := b }
      else
        { result := .toolResult (format_error (.mcpError methodNotFoundCode ("Unimplemented tool: " ++ toolName))) true,
          cache := cache, backendCalled := false }

/-- The stub provider reply of the end-to-end search scenario: query
"rust ownership", a summary answer, and one result from the Rust book. -/
def rustStubResponse : TavilySearchResponse :=
  { query := "rust ownership",
    answer := some "Rust uses ownership to manage memory.",
    response_time := "0.2",
    results := [{ title := "Ownership - Rust Book",
                  url := "https://doc.rust-lang.org/book/ch04-00-ownership.html",
                  content := "...",
                  score := "0.9" }] }

/-- A small concrete provider reply used as a cache value in witnesses. -/
def sampleResponse : TavilySearchResponse :=
  { query := "rust",
    answer := none,
    response_time := "0.1",
    results := [{ title := "Rust", url := "https://www.rust-lang.org",
                  content := "A language.", score := "0.5" }] }

/-- A second concrete provider reply, distinct from sampleResponse, used to
observe whether a second backend call happened. -/
def sampleResponse2 : TavilySearchResponse :=
  { query := "rust",
    answer := some "fresh",
    response_time := "0.3",
    results := [] }

/-- The stub provider reply of the context scenario: two results whose
content fields joined by a blank line exceed ten characters. -/
def ctxStubResponse : TavilySearchResponse :=
  { query := "q",
    response_time := "0.1",
    results := [{ title := "A", url := "https://a", content := "abcdef", score := "0.5" },
                { title := "B", url := "https://b", content := "ghijkl", score := "0.4" }] }

/-- One numbered source block of the text formatter: index line with title,
URL line, Published line when published_date is truthy, Content line. -/
def format_result_text (i : Nat) (r : SearchResultItem) : String :=
  let s := toString (i + 1) ++ ". " ++ r.title ++ "\n"
  let s := s ++ "   URL: " ++ r.url ++ "\n"
  let s := s ++ (match r.published_date with
    | some d => if d = "" then "" else "   Published: " ++ d ++ "\n"
    | none => "")
  s ++ "   Content: " ++ r.content ++ "\n"

/-- response_formatters.text: header line, Summary block when the answer is
truthy, then the numbered source blocks joined by a blank line. -/
def response_formatters.text (data : TavilySearchResponse) : String :=
  let output := "Search Results for \"" ++ data.query ++ "\":\n\n"
  let output := output ++ (match data.answer with
    | some a => if a = "" then "" else "Summary: " ++ a ++ "\n\nDetailed Sources:\n"
    | none => "")
  output ++ String.intercalate "\n" (data.results.enum.map (fun p => format_result_text p.1 p.2))

/-- response_formatters.json: JSON.stringify(data, null, 2). -/
def response_formatters.json (data : TavilySearchResponse) : String :=
  jsonStringifyResponse data

/-- One source section of the markdown formatter. -/
def format_result_markdown (r : SearchResultItem) : String :=
  let s := "### " ++ r.title ++ "\n"
  let s := s ++ "- URL: [" ++ r.url ++ "](" ++ r.url ++ ")\n"
  let s := s ++ (match r.published_date with
    | some d => if d = "" then "" else "- Published: " ++ d ++ "\n"
    | none => "")
  s ++ "\n" ++ r.content ++ "\n"

/-- response_formatters.markdown: heading, Summary section when the answer is
truthy, then the source sections joined by a horizontal rule. -/
def response_formatters.markdown (data : TavilySearchResponse) : String :=
  let output := "# Search Results: " ++ data.query ++ "\n\n"
  let output := output ++ (match data.answer with
    | some a => if a = "" then "" else "## Summary\n" ++ a ++ "\n\n## Sources\n"
    | none => "")
  output ++ String.intercalate "\n---\n" (data.results.map format_result_markdown)

set_option maxRecDepth 100000

/-- C1: ruled a code bug.  The tool registry and the README declare a
response_format parameter whose default is text, and the text formatter
exists and renders exactly the claimed shape, but handle_search never
consults response_format or any formatter: with response_format unspecified
the dispatcher returns the JSON.stringify rendering of the SearchResult, not
the text-mode rendering, for the spec's own end-to-end stub scenario. -/
theorem c1_search_returns_json_not_text_rendering :
    (dispatch (.ok rustStubResponse) 0 [] "tavily_search"
        { query := some (.vstr "rust ownership") }).result
      = .toolResult (jsonStringifyResponse rustStubResponse) false
    ∧ jsonStringifyResponse rustStubResponse
      = "\x7b\n  \"query\": \"rust ownership\",\n  \"answer\": \"Rust uses ownership to manage memory.\",\n  \"response_time\": 0.2,\n  \"results\": [\n    \x7b\n      \"title\": \"Ownership - Rust Book\",\n      \"url\": \"https://doc.rust-lang.org/book/ch04-00-ownership.html\",\n      \"content\": \"...\",\n      \"score\": 0.9\n    \x7d\n  ]\n\x7d"
    ∧ startsWithStr (response_formatters.text rustStubResponse)
        "Search Results for \"rust ownership\":\n\nSummary: Rust uses ownership to manage memory." = true
    ∧ startsWithStr (jsonStringifyResponse rustStubResponse) "Search Results for" = false
    ∧ jsonStringifyResponse rustStubResponse ≠ response_formatters.text rustStubResponse := by
  decide

/-- First search call of the force_refresh scenario: empty cache, so the
backend is called and its reply cached. -/
def c2_first_call : DispatchOut :=
  dispatch (.ok sampleResponse) 0 [] "tavily_search" { query := some (.vstr "rust") }

/-- Second search call of the force_refresh scenario: same query,
force_refresh set to true, a distinct fresh backend reply available, one
second later. -/
def c2_second_call : DispatchOut :=
  dispatch (.ok sampleResponse2) 1000 c2_first_call.cache "tavily_search"
    { query := some (.vstr "rust"), force_refresh := some true }

/-- C2: ruled a code bug.  The registry schema and the README declare
force_refresh as "Force fresh results ignoring cache", but the dispatcher
never copies force_refresh out of the raw arguments (TavilySearchParams has
no such field) and handle_search always consults the cache: with a live
entry present, a call with force_refresh = true is served from the cache,
makes no backend call, and overwrites nothing. -/
theorem c2_force_refresh_is_ignored :
    c2_first_call.backendCalled = true
    ∧ c2_second_call.backendCalled = false
    ∧ c2_second_call.result = .toolResult (jsonStringifyResponse sampleResponse) false
    ∧ c2_second_call.cache = c2_first_call.cache
    ∧ lookupEntry c2_second_call.cache
        (search_cache_key (searchDefaults (rawToSearchParams "rust" {})))
      = some { data := sampleResponse, timestamp := 0, ttl := 3600 } := by
  decide

/-- Search call of the cache_ttl scenario: cache_ttl 10 supplied. -/
def c3_call : DispatchOut :=
  dispatch (.ok sampleResponse) 0 [] "tavily_search"
    { query := some (.vstr "rust"), cache_ttl := some 10 }

/-- Later search call of the cache_ttl scenario: same query, a different
cache_ttl, against the cache the first call produced. -/
def c3_later_call : DispatchOut :=
  dispatch (.ok sampleResponse2) 1000 c3_call.cache "tavily_search"
    { query := some (.vstr "rust"), cache_ttl := some 99 }

/-- C3: ruled a code bug.  The registry schema and the README declare a
cache_ttl parameter (default 3600 s), but the dispatcher never copies
cache_ttl out of the raw arguments and handle_search passes the literal 3600
to cache.set: a call supplying cache_ttl = 10 still stores its entry with
ttl 3600.  The claim's second half holds trivially: a later call with a
different cache_ttl leaves the stored entry untouched. -/
theorem c3_cache_ttl_is_ignored :
    c3_call.backendCalled = true
    ∧ c3_call.cache.map (fun kv => kv.2.ttl) = [3600]
    ∧ (10 : Nat) ≠ 3600
    ∧ c3_later_call.cache = c3_call.cache := by
  decide

/-- C4 counterexample: the defaults the handler applies are not the defaults
the registry schema declares.  For tavily_search the schema declares
max_results 10 and include_answer true while the handler applies 5 and
false; the context tool's schema declares no search_depth property at all,
so no schema default advanced exists for it. -/
theorem c4_counterexample :
    schemaDefault "tavily_search" "max_results" = some (.vnum 10)
    ∧ schemaDefault "tavily_search" "include_answer" = some (.vbool true)
    ∧ (searchDefaults (rawToSearchParams "q" { query := some (.vstr "q") })).max_results = 5
    ∧ (searchDefaults (rawToSearchParams "q" { query := some (.vstr "q") })).include_answer = false
    ∧ schemaDefault "tavily_get_search_context" "search_depth" = none
    ∧ (toolPropNames "tavily_get_search_context").contains "search_depth" = false := by
  decide

/-- C5 counterexample: the search descriptor's schema does not enumerate the
fields of the TavilySearchParams record: topic, days, time_range and the
image/raw-content flags are missing from it, and it carries a min_score
property that the parameter record does not have. -/
theorem c5_counterexample :
    (toolPropNames "tavily_search").contains "topic" = false
    ∧ (toolPropNames "tavily_search").contains "days" = false
    ∧ (toolPropNames "tavily_search").contains "time_range" = false
    ∧ (toolPropNames "tavily_search").contains "include_images" = false
    ∧ (toolPropNames "tavily_search").contains "include_raw_content" = false
    ∧ (toolPropNames "tavily_search").contains "min_score" = true := by
  decide

/-- C5 amended: the registry's list operation returns exactly three
descriptors in the fixed order tavily_search, tavily_get_search_context,
tavily_qna_search, each requiring exactly query, and the schemas enumerate
exactly the properties tools.ts declares: for the search tool query,
search_depth, include_answer, include_domains, exclude_domains,
response_format, max_results, min_score, cache_ttl, force_refresh; for the
context tool query, max_tokens, response_format; for the QnA tool query,
include_sources, response_format. -/
theorem c5_registry_list_amended :
    TAVILY_TOOLS.map (fun t => t.name)
      = ["tavily_search", "tavily_get_search_context", "tavily_qna_search"]
    ∧ toolPropNames "tavily_search"
      = ["query", "search_depth", "include_answer", "include_domains",
         "exclude_domains", "response_format", "max_results", "min_score",
         "cache_ttl", "force_refresh"]
    ∧ toolPropNames "tavily_get_search_context" = ["query", "max_tokens", "response_format"]
    ∧ toolPropNames "tavily_qna_search" = ["query", "include_sources", "response_format"]
    ∧ TAVILY_TOOLS.map (fun t => t.required) = [["query"], ["query"], ["query"]] := by
  decide

/-- A find? for a key on a map filtered to exclude that key finds nothing. -/
theorem find?_filter_ne (m : CacheMap) (k : String) :
    (m.filter (fun kv => kv.1 != k)).find? (fun kv => kv.1 == k) = none := by
  rw [List.find?_eq_none]
  intro x hx
  have hmem : (x.1 != k) = true := (List.mem_filter.mp hx).2
  simpa using hmem

/-- Length of the character slice taken by the context handler. -/
theorem jsSlice_length (s : String) (n : Nat) :
    (jsSlice s n).length = min n s.length := by
  cases s with
  | mk l => simp [jsSlice, String.length, List.length_take]

/-- C7: confirmed.  The cache never returns an entry once now - storedAt
exceeds its ttl in seconds, removing such an entry lazily on the read; a set
followed by a get within the ttl window returns the stored value and leaves
the map unchanged; a get past the window returns absent and removes the
entry for that key. -/
theorem c7_cache_ttl_expiry (m : CacheMap) (k : String)
    (v : TavilySearchResponse) (tput ttl now : Nat) :
    (∀ e, lookupEntry m k = some e → now - e.timestamp > e.ttl * 1000 →
        (cacheGet m now k).1 = none ∧ lookupEntry (cacheGet m now k).2 k = none)
    ∧ (now - tput ≤ ttl * 1000 →
        cacheGet (cacheSet m k v tput ttl) now k = (some v, cacheSet m k v tput ttl))
    ∧ (now - tput > ttl * 1000 →
        (cacheGet (cacheSet m k v tput ttl) now k).1 = none
        ∧ lookupEntry (cacheGet (cacheSet m k v tput ttl) now k).2 k = none) := by
  have hfind : (cacheSet m k v tput ttl).find? (fun kv => kv.1 == k)
      = some (k, { data := v, timestamp := tput, ttl := ttl }) := by
    simp only [cacheSet]
    apply List.find?_cons_of_pos
    simp
  refine ⟨?_, ?_, ?_⟩
  · intro e he hexp
    rcases Option.map_eq_some'.mp he with ⟨kv, hf, hkv⟩
    have hcond : now - kv.2.timestamp > kv.2.ttl * 1000 := by rw [hkv]; exact hexp
    simp only [cacheGet, hf, if_pos hcond]
    simp [lookupEntry, find?_filter_ne]
  · intro h
    simp only [cacheGet, hfind]
    rw [if_neg (by omega)]
  · intro h
    simp only [cacheGet, hfind]
    rw [if_pos (by omega)]
    simp [lookupEntry, find?_filter_ne]

/-- Witness for C7 at a concrete instance: ttl 5 s, read at 3 s hits and
read at 6 s misses. -/
theorem c7_cache_ttl_expiry_witness :
    cacheGet (cacheSet [] "k" sampleResponse 0 5) 3000 "k"
      = (some sampleResponse, cacheSet [] "k" sampleResponse 0 5)
    ∧ (cacheGet (cacheSet [] "k" sampleResponse 0 5) 6000 "k").1 = none :=
  ⟨(c7_cache_ttl_expiry [] "k" sampleResponse 0 5 3000).2.1 (by decide),
   ((c7_cache_ttl_expiry [] "k" sampleResponse 0 5 6000).2.2 (by decide)).1⟩

/-- C8: confirmed.  The context tool's returned text is the results' content
fields in order, joined by a blank line and sliced to max_tokens characters
(a character truncation), so its length is the minimum of max_tokens and the
joined length; in the concrete scenario with max_tokens 10 and fourteen
joined characters the dispatcher returns exactly ten characters. -/
theorem c8_context_concat_truncate (data : TavilySearchResponse) (p : TavilyContextParams) :
    (handle_context (.ok data) p).1
      = .ok (jsSlice (String.intercalate "\n\n" (data.results.map (fun r => r.content)))
              (contextDefaults p).max_tokens)
    ∧ (handle_context (.ok data) p).2 = true
    ∧ (jsSlice (String.intercalate "\n\n" (data.results.map (fun r => r.content)))
        (contextDefaults p).max_tokens).length
      = min (contextDefaults p).max_tokens
          (String.intercalate "\n\n" (data.results.map (fun r => r.content))).length
    ∧ (dispatch (.ok ctxStubResponse) 0 [] "tavily_get_search_context"
        { query := some (.vstr "q"), max_tokens := some 10 }).result
      = .toolResult "abcdef\n\ngh" false
    ∧ ("abcdef\n\ngh").length = 10 :=
  ⟨rfl, rfl, jsSlice_length _ _, by decide, by decide⟩

/-- C4 amended: each optional field absent from rawArgs is given the
handler's hard-coded destructuring default - for tavily_search search_depth
basic, max_results 5, include_answer false, include_images false,
include_raw_content false, and search_depth advanced for the context and QnA
tools - but these are the handlers' literals, not the registry schema's
declared defaults, which state max_results 10 and include_answer true and
declare no search_depth for the context and QnA tools. -/
theorem c4_handler_defaults (raw : RawArgs) (q : String)
    (h1 : raw.search_depth = none) (h2 : raw.max_results = none)
    (h3 : raw.include_answer = none) (h4 : raw.include_images = none)
    (h5 : raw.include_raw_content = none) :
    (searchDefaults (rawToSearchParams q raw)).search_depth = "basic"
    ∧ (searchDefaults (rawToSearchParams q raw)).max_results = 5
    ∧ (searchDefaults (rawToSearchParams q raw)).include_answer = false
    ∧ (searchDefaults (rawToSearchParams q raw)).include_images = false
    ∧ (searchDefaults (rawToSearchParams q raw)).include_raw_content = false
    ∧ (contextDefaults (rawToContextParams q raw)).search_depth = "advanced"
    ∧ (qnaDefaults (rawToQnAParams q raw)).search_depth = "advanced" := by
  simp [searchDefaults, contextDefaults, qnaDefaults,
        rawToSearchParams, rawToContextParams, rawToQnAParams,
        h1, h2, h3, h4, h5]

/-- Witness for C4's amended statement at the empty raw argument bag. -/
theorem c4_handler_defaults_witness :
    (searchDefaults (rawToSearchParams "q" {})).search_depth = "basic"
    ∧ (searchDefaults (rawToSearchParams "q" {})).max_results = 5
    ∧ (searchDefaults (rawToSearchParams "q" {})).include_answer = false
    ∧ (searchDefaults (rawToSearchParams "q" {})).include_images = false
    ∧ (searchDefaults (rawToSearchParams "q" {})).include_raw_content = false
    ∧ (contextDefaults (rawToContextParams "q" {})).search_depth = "advanced"
    ∧ (qnaDefaults (rawToQnAParams "q" {})).search_depth = "advanced" :=
  c4_handler_defaults {} "q" rfl rfl rfl rfl rfl

/-- The dispatcher on the tool name tavily_search reduces to the search
branch. -/
theorem dispatch_search_def (backend : BackendResult) (now : Nat)
    (cache : CacheMap) (raw : RawArgs) :
    dispatch backend now cache "tavily_search" raw
      = match validate_query raw with
        | none =>
            { result := .toolResult (format_error invalidQueryError) true,
              cache := cache, backendCalled := false }
        | some q =>
            match (handle_search backend now cache (rawToSearchParams q raw)).outcome with
            | .ok t =>
                { result := .toolResult t false,
                  cache := (handle_search backend now cache (rawToSearchParams q raw)).cache,
                  backendCalled := (handle_search backend now cache (rawToSearchParams q raw)).backendCalled }
            | .error e =>
                { result := .toolResult (format_error e) true,
                  cache := (handle_search backend now cache (rawToSearchParams q raw)).cache,
                  backendCalled := (handle_search backend now cache (rawToSearchParams q raw)).backendCalled } := by
  rfl

/-- The dispatcher on the tool name tavily_get_search_context reduces to the
context branch. -/
theorem dispatch_context_def (backend : BackendResult) (now : Nat)
    (cache : CacheMap) (raw : RawArgs) :
    dispatch backend now cache "tavily_get_search_context" raw
      = match validate_query raw with
        | none =>
            { result := .toolResult (format_error invalidQueryError) true,
              cache := cache, backendCalled := false }
        | some q =>
            match handle_context backend (rawToContextParams q raw) with
            | (.ok t, b) =>
                { result := .toolResult t false, cache := cache, backendCalled := b }
            | (.error e, b) =>
                { result := .toolResult (format_error e) true, cache := cache,
                  backendCalled := b } := by
  rfl

/-- The dispatcher on the tool name tavily_qna_search reduces to the QnA
branch. -/
theorem dispatch_qna_def (backend : BackendResult) (now : Nat)
    (cache : CacheMap) (raw : RawArgs) :
    dispatch backend now cache "tavily_qna_search" raw
      = match validate_query raw with
        | none =>
            { result := .toolResult (format_error invalidQueryError) true,
              cache := cache, backendCalled := false }
        | some q =>
            match handle_qna backend (rawToQnAParams q raw) with
            | (.ok t, b) =>
                { result := .toolResult t false, cache := cache, backendCalled := b }
            | (.error e, b) =>
                { result := .toolResult (format_error e) true, cache := cache,
                  backendCalled := b } := by
  rfl

/-- The query check accepts a non-empty string query. -/
theorem validate_query_eq_some (raw : RawArgs) (q : String)
    (hq : raw.query = some (.vstr q)) (hne : q ≠ "") :
    validate_query raw = some q := by
  unfold validate_query
  rw [hq]
  simp [hne]

/-- The query check rejects an empty string query (falsy). -/
theorem validate_query_empty (raw : RawArgs) (hq : raw.query = some (.vstr "")) :
    validate_query raw = none := by
  unfold validate_query
  rw [hq]
  rfl

/-- The query check rejects an absent query. -/
theorem validate_query_absent (raw : RawArgs) (hq : raw.query = none) :
    validate_query raw = none := by
  unfold validate_query
  rw [hq]

/-- find? on a freshly set cache finds the freshly stored entry. -/
theorem cacheSet_find? (m : CacheMap) (k : String) (v : TavilySearchResponse)
    (tput ttl : Nat) :
    (cacheSet m k v tput ttl).find? (fun kv => kv.1 == k)
      = some (k, { data := v, timestamp := tput, ttl := ttl }) := by
  simp only [cacheSet]
  apply List.find?_cons_of_pos
  simp

/-- A get within the ttl window of a set returns the stored value and leaves
the map unchanged. -/
theorem cacheGet_set_live (m : CacheMap) (k : String) (v : TavilySearchResponse)
    (tput ttl now : Nat) (h : now - tput ≤ ttl * 1000) :
    cacheGet (cacheSet m k v tput ttl) now k = (some v, cacheSet m k v tput ttl) := by
  simp only [cacheGet, cacheSet_find?]
  rw [if_neg (by omega)]

/-- handle_search on a cache hit returns the rendering of the hit without a
backend call. -/
theorem handle_search_of_get (backend : BackendResult) (now : Nat)
    (cache c2 : CacheMap) (args : TavilySearchParams) (cached : TavilySearchResponse)
    (h : cacheGet cache now (search_cache_key (searchDefaults args)) = (some cached, c2)) :
    handle_search backend now cache args
      = { outcome := .ok (jsonStringifyResponse cached), cache := c2,
          backendCalled := false } := by
  simp only [handle_search, h]

/-- The cache key depends only on the query, search_depth, topic,
include_answer, include_images and include_raw_content arguments. -/
theorem search_cache_key_congr (q : String) (raw1 raw2 : RawArgs)
    (hd : raw1.search_depth = raw2.search_depth) (ht : raw1.topic = raw2.topic)
    (ha : raw1.include_answer = raw2.include_answer)
    (hi : raw1.include_images = raw2.include_images)
    (hr : raw1.include_raw_content = raw2.include_raw_content) :
    search_cache_key (searchDefaults (rawToSearchParams q raw1))
      = search_cache_key (searchDefaults (rawToSearchParams q raw2)) := by
  simp [search_cache_key, searchDefaults, rawToSearchParams, hd, ht, ha, hi, hr]

/-- C6: confirmed.  Two search calls agreeing on query, search_depth, topic,
include_answer, include_images and include_raw_content derive the same cache
key even when they differ in max_results, include_domains, exclude_domains
or response_format, and the second call (no force refresh), made within the
stored ttl window against the cache the first call produced, is served from
cache with no second backend call. -/
theorem c6_cache_key_independence (raw1 raw2 : RawArgs) (q : String)
    (resp : TavilySearchResponse) (b2 : BackendResult) (now1 now2 : Nat)
    (h1 : raw1.query = some (.vstr q)) (h2 : raw2.query = some (.vstr q))
    (hne : q ≠ "")
    (hd : raw1.search_depth = raw2.search_depth) (ht : raw1.topic = raw2.topic)
    (ha : raw1.include_answer = raw2.include_answer)
    (hi : raw1.include_images = raw2.include_images)
    (hr : raw1.include_raw_content = raw2.include_raw_content)
    (_hf : raw2.force_refresh = none ∨ raw2.force_refresh = some false)
    (htime : now2 - now1 ≤ 3600 * 1000) :
    search_cache_key (searchDefaults (rawToSearchParams q raw1))
      = search_cache_key (searchDefaults (rawToSearchParams q raw2))
    ∧ (dispatch (.ok resp) now1 [] "tavily_search" raw1).backendCalled = true
    ∧ (dispatch b2 now2 (dispatch (.ok resp) now1 [] "tavily_search" raw1).cache
        "tavily_search" raw2).backendCalled = false
    ∧ (dispatch b2 now2 (dispatch (.ok resp) now1 [] "tavily_search" raw1).cache
        "tavily_search" raw2).result
      = .toolResult (jsonStringifyResponse resp) false := by
  have hkey := search_cache_key_congr q raw1 raw2 hd ht ha hi hr
  have hv1 := validate_query_eq_some raw1 q h1 hne
  have hv2 := validate_query_eq_some raw2 q h2 hne
  have hd1 : dispatch (.ok resp) now1 [] "tavily_search" raw1
      = { result := .toolResult (jsonStringifyResponse resp) false,
          cache := cacheSet []
            (search_cache_key (searchDefaults (rawToSearchParams q raw1))) resp now1 3600,
          backendCalled := true } := by
    rw [dispatch_search_def, hv1]
    rfl
  have hget : cacheGet
      (cacheSet [] (search_cache_key (searchDefaults (rawToSearchParams q raw1))) resp now1 3600)
      now2 (search_cache_key (searchDefaults (rawToSearchParams q raw2)))
      = (some resp,
         cacheSet [] (search_cache_key (searchDefaults (rawToSearchParams q raw1))) resp now1 3600) := by
    rw [← hkey]
    exact cacheGet_set_live [] _ resp now1 3600 now2 (by omega)
  have hstep2 : handle_search b2 now2
      (cacheSet [] (search_cache_key (searchDefaults (rawToSearchParams q raw1))) resp now1 3600)
      (rawToSearchParams q raw2)
      = { outcome := .ok (jsonStringifyResponse resp),
          cache := cacheSet []
            (search_cache_key (searchDefaults (rawToSearchParams q raw1))) resp now1 3600,
          backendCalled := false } :=
    handle_search_of_get _ _ _ _ _ _ hget
  have hd2 : dispatch b2 now2
      (cacheSet [] (search_cache_key (searchDefaults (rawToSearchParams q raw1))) resp now1 3600)
      "tavily_search" raw2
      = { result := .toolResult (jsonStringifyResponse resp) false,
          cache := cacheSet []
            (search_cache_key (searchDefaults (rawToSearchParams q raw1))) resp now1 3600,
          backendCalled := false } := by
    rw [dispatch_search_def, hv2]
    simp only [hstep2]
  refine ⟨hkey, ?_, ?_, ?_⟩
  · rw [hd1]
  · simp only [hd1]
    rw [hd2]
  · simp only [hd1]
    rw [hd2]

/-- Witness for C6: the two calls differ in max_results, domains and
response_format yet share the key, and the second is a cache hit. -/
theorem c6_cache_key_independence_witness :
    search_cache_key (searchDefaults (rawToSearchParams "rust"
        { query := some (.vstr "rust"), max_results := some 3,
          include_domains := some ["a.com"] }))
      = search_cache_key (searchDefaults (rawToSearchParams "rust"
        { query := some (.vstr "rust"), max_results := some 9,
          response_format := some "markdown" }))
    ∧ (dispatch (.ok sampleResponse) 0 [] "tavily_search"
        { query := some (.vstr "rust"), max_results := some 3,
          include_domains := some ["a.com"] }).backendCalled = true
    ∧ (dispatch (.ok sampleResponse2) 1000
        (dispatch (.ok sampleResponse) 0 [] "tavily_search"
          { query := some (.vstr "rust"), max_results := some 3,
            include_domains := some ["a.com"] }).cache
        "tavily_search"
        { query := some (.vstr "rust"), max_results := some 9,
          response_format := some "markdown" }).backendCalled = false
    ∧ (dispatch (.ok sampleResponse2) 1000
        (dispatch (.ok sampleResponse) 0 [] "tavily_search"
          { query := some (.vstr "rust"), max_results := some 3,
            include_domains := some ["a.com"] }).cache
        "tavily_search"
        { query := some (.vstr "rust"), max_results := some 9,
          response_format := some "markdown" }).result
      = .toolResult (jsonStringifyResponse sampleResponse) false :=
  c6_cache_key_independence
    { query := some (.vstr "rust"), max_results := some 3,
      include_domains := some ["a.com"] }
    { query := some (.vstr "rust"), max_results := some 9,
      response_format := some "markdown" }
    "rust" sampleResponse (.ok sampleResponse2) 0 1000
    rfl rfl (by decide) rfl rfl rfl rfl rfl (Or.inl rfl) (by decide)

/-- C9 counterexample: a malformed request (absent query, or a non-string
query) does not surface as a protocol-level invalid-params error; the
InvalidParams McpError is thrown inside the try block, caught by the
dispatcher's catch, and returned as a successful tool result with
isError = true. -/
theorem c9_counterexample :
    (dispatch (.ok sampleResponse) 0 [] "tavily_search" { query := none }).result
      = .toolResult "Error: MCP error -32602: Query parameter is required and must be a string" true
    ∧ (dispatch (.ok sampleResponse) 0 [] "tavily_search" { query := some (.vnum 5) }).result
      = .toolResult "Error: MCP error -32602: Query parameter is required and must be a string" true := by
  decide

/-- C9 amended: every error raised inside a tool invocation - the
invalid-params validation error for a missing or non-string query included -
is caught at the dispatcher boundary and returned as a tool result with
isError = true and a human-readable message; only an unknown tool name
escapes as a protocol-level method-not-found error. -/
theorem c9_errors_caught_at_dispatcher (b : BackendResult) (now : Nat)
    (c : CacheMap) (n : String) (raw : RawArgs) (sx : String) (q : String) :
    (findTool n = none →
      dispatch b now c n raw
        = { result := .protocolError methodNotFoundCode ("Unknown tool: " ++ n),
            cache := c, backendCalled := false })
    ∧ ((findTool n).isSome = true →
        ∃ t e, (dispatch b now c n raw).result = .toolResult t e)
    ∧ (raw.query = some (.vstr q) → q ≠ "" →
        (dispatch (.err 500 sx) now [] "tavily_search" raw).result
          = .toolResult ("Tavily API Error (API_ERROR): API request failed: " ++ sx) true) := by
  refine ⟨?_, ?_, ?_⟩
  · intro h
    simp only [dispatch, h]
  · intro h
    rcases Option.isSome_iff_exists.mp h with ⟨d, hfd⟩
    simp only [dispatch, hfd]
    repeat' split
    all_goals exact ⟨_, _, rfl⟩
  · intro hq hne
    rw [dispatch_search_def, validate_query_eq_some raw q hq hne]
    rfl

/-- Witness for C9's amended statement: an unregistered name escapes as a
protocol error, a registered name yields a tool result, and a backend
failure is caught as an isError result. -/
theorem c9_errors_caught_at_dispatcher_witness :
    dispatch (.ok sampleResponse) 0 [] "bogus" {}
      = { result := .protocolError methodNotFoundCode ("Unknown tool: " ++ "bogus"),
          cache := [], backendCalled := false }
    ∧ (∃ t e, (dispatch (.ok sampleResponse) 0 [] "tavily_search" {}).result
        = .toolResult t e)
    ∧ (dispatch (.err 500 "Internal Server Error") 0 [] "tavily_search"
        { query := some (.vstr "rust") }).result
      = .toolResult ("Tavily API Error (API_ERROR): API request failed: "
          ++ "Internal Server Error") true :=
  ⟨(c9_errors_caught_at_dispatcher (.ok sampleResponse) 0 [] "bogus" {} "" "").1 (by decide),
   (c9_errors_caught_at_dispatcher (.ok sampleResponse) 0 [] "tavily_search" {} "" "").2.1 (by decide),
   (c9_errors_caught_at_dispatcher (.err 500 "Internal Server Error") 0 []
      "tavily_search" { query := some (.vstr "rust") } "Internal Server Error" "rust").2.2
     rfl (by decide)⟩

/-- C10: confirmed.  For each of the three tools, an empty-string query is
falsy and fails the same check as an absent query: the call is rejected with
the identical invalid-params error result, the outcome equals the
absent-query outcome, and no backend call is made. -/
theorem c10_empty_query_rejected (n : String) (b : BackendResult) (now : Nat)
    (c : CacheMap) (raw : RawArgs)
    (hn : n = "tavily_search" ∨ n = "tavily_get_search_context" ∨ n = "tavily_qna_search")
    (hq : raw.query = some (.vstr "")) :
    dispatch b now c n raw
      = { result := .toolResult (format_error invalidQueryError) true,
          cache := c, backendCalled := false }
    ∧ dispatch b now c n raw = dispatch b now c n { raw with query := none }
    ∧ (dispatch b now c n raw).backendCalled = false := by
  have hv : validate_query raw = none := validate_query_empty raw hq
  have hv2 : validate_query { raw with query := none } = none :=
    validate_query_absent _ rfl
  rcases hn with h | h | h <;> subst h
  · exact ⟨by rw [dispatch_search_def, hv],
           by simp only [dispatch_search_def, hv, hv2],
           by rw [dispatch_search_def, hv]⟩
  · exact ⟨by rw [dispatch_context_def, hv],
           by simp only [dispatch_context_def, hv, hv2],
           by rw [dispatch_context_def, hv]⟩
  · exact ⟨by rw [dispatch_qna_def, hv],
           by simp only [dispatch_qna_def, hv, hv2],
           by rw [dispatch_qna_def, hv]⟩

/-- Witness for C10 at the search tool with an otherwise-populated argument
bag. -/
theorem c10_empty_query_rejected_witness :
    dispatch (.ok sampleResponse) 0 [] "tavily_search"
        { query := some (.vstr ""), max_results := some 3 }
      = { result := .toolResult (format_error invalidQueryError) true,
          cache := [], backendCalled := false }
    ∧ dispatch (.ok sampleResponse) 0 [] "tavily_search"
        { query := some (.vstr ""), max_results := some 3 }
      = dispatch (.ok sampleResponse) 0 [] "tavily_search"
        { query := none, max_results := some 3 }
    ∧ (dispatch (.ok sampleResponse) 0 [] "tavily_search"
        { query := some (.vstr ""), max_results := some 3 }).backendCalled = false :=
  c10_empty_query_rejected "tavily_search" (.ok sampleResponse) 0 []
    { query := some (.vstr ""), max_results := some 3 } (Or.inl rfl) rfl
